import Mathlib

/-
Verification of the Navis-VPS session lifecycle controller
(android/app/src/main/java/com/nativelocalstorage/NativeLocalStorageModule.java).

The module is a React Native bridge around the ARCore geospatial engine.  It
owns one `Session` handle, one `VpsState` enum cell, a `mUserRequestedInstall`
flag and a cooperative polling flag `isPollingVpsState`.  Every state change
goes through `setState`, which suppresses writes of the current value and
emits one `onVpsStateChange` event per committed change.

The shallow embedding below is sequential: each bridge method is a function
from an environment (the outcomes of the external ARCore calls the method
makes) and the module state to a new module state together with the value the
method resolves on its promise.  Two ghost fields instrument the state:
`history` records every value the state cell ever held (its tail, rendered
with `toStr`, is exactly the sequence of emitted state-change events), and
`calls` records every engine primitive the module invoked.  The asynchronous
close of `closeAR` is modelled as running to completion before the promise
resolves, matching the single-threaded executor of the source.
-/

namespace NavisVps

/-- The `VpsState` enum of the module, in source declaration order. -/
inductive VpsState where
  | NOT_SETUP
  | SETTING_UP
  | SETUP_FAILED
  | UNSUPPORTED
  | READY_TO_TRACK
  | PRETRACKING
  | TRACKING
  | EARTH_STATE_ERROR
  | CAMERA_NOT_AVAILABLE
  | FATAL_UPDATE_ERROR
deriving DecidableEq

/-- Java `VpsState.toString()`: the enum constant name, which is the payload
of state-change events and the return value of `getVpsState`. -/
def VpsState.toStr : VpsState → String
  | .NOT_SETUP => "NOT_SETUP"
  | .SETTING_UP => "SETTING_UP"
  | .SETUP_FAILED => "SETUP_FAILED"
  | .UNSUPPORTED => "UNSUPPORTED"
  | .READY_TO_TRACK => "READY_TO_TRACK"
  | .PRETRACKING => "PRETRACKING"
  | .TRACKING => "TRACKING"
  | .EARTH_STATE_ERROR => "EARTH_STATE_ERROR"
  | .CAMERA_NOT_AVAILABLE => "CAMERA_NOT_AVAILABLE"
  | .FATAL_UPDATE_ERROR => "FATAL_UPDATE_ERROR"

/-- ARCore `TrackingState` (the values the module compares against). -/
inductive TrackingState where
  | TRACKING
  | PAUSED
  | STOPPED
deriving DecidableEq

/-- ARCore `Earth.EarthState` (the module only distinguishes ENABLED). -/
inductive EarthState where
  | ENABLED
  | ERROR_INTERNAL
  | ERROR_NOT_AUTHORIZED
  | ERROR_RESOURCE_EXHAUSTED
deriving DecidableEq

/-- Engine-side `GeospatialPose`: the fields the module reads. -/
structure GeospatialPose where
  latitude : Float
  longitude : Float
  altitude : Float
  verticalAccuracy : Float
  horizontalAccuracy : Float
  orientationYawAccuracy : Float
  eastUpSouthQuaternion : List Float

/-- The `WritableMap` built by `getCameraGeospatialPose`. -/
structure PoseMap where
  latitude : Float
  longitude : Float
  altitude : Float
  verticalAccuracy : Float
  horizontalAccuracy : Float
  orientationYawAccuracy : Float
  quaternion : List Float

/-- What `mSession.getEarth()` exposes when it returns a non-null `Earth`. -/
structure EarthInfo where
  earthState : EarthState
  trackingState : TrackingState
  pose : GeospatialPose

/-- The value a bridge method resolves on its promise: the source resolves
booleans, error strings, or a pose map on the same channel. -/
inductive Resolved where
  | rbool : Bool → Resolved
  | rstr : String → Resolved
  | rpose : PoseMap → Resolved

/-- The checked exceptions `setupAR` catches. -/
inductive SetupThrow where
  | UserDeclinedInstallation
  | ArcoreNotInstalled
  | DeviceNotCompatible
  | ApkTooOld
  | SdkTooOld
  | Fatal
  | Security
deriving DecidableEq

/-- The error string each `setupAR` catch branch resolves. -/
def SetupThrow.errString : SetupThrow → String
  | .UserDeclinedInstallation => "ERROR_ARCORE_INSTALL_DECLINED"
  | .ArcoreNotInstalled => "ERROR_ARCORE_NOT_INSTALLED"
  | .DeviceNotCompatible => "ERROR_ARCORE_NOT_COMPATIBLE"
  | .ApkTooOld => "ERROR_ARCORE_APK_TOO_OLD"
  | .SdkTooOld => "ERROR_ARCORE_SDK_TOO_OLD"
  | .Fatal => "ERROR_ARCORE_FATAL_ERROR"
  | .Security => "ERROR_ARCORE_SECURITY_ERROR"

/-- `ArCoreApk.InstallStatus`. -/
inductive InstallStatus where
  | INSTALL_REQUESTED
  | INSTALLED
deriving DecidableEq

/-- Outcome of `mSession.resume()` inside `startTracking`, one constructor
per catch branch of the source. -/
inductive ResumeOutcome where
  | ok
  | sessionNotPaused
  | cameraNotAvailable
  | security
  | illegalState
  | unsupportedConfiguration
  | fatal
deriving DecidableEq

/-- The error string each `startTracking` catch branch resolves
(`.ok` never reaches a catch branch; its entry is unused). -/
def ResumeOutcome.errString : ResumeOutcome → String
  | .ok => ""
  | .sessionNotPaused => "ERROR_SESSION_NOT_PAUSED"
  | .cameraNotAvailable => "ERROR_CAMERA_NOT_AVAILABLE"
  | .security => "ERROR_CAMERA_PERMISSION_NOT_GRANTED"
  | .illegalState => "ERROR_ILLEGAL_STATE"
  | .unsupportedConfiguration => "ERROR_UNSUPPORTED_CONFIGURATION"
  | .fatal => "ERROR_FATAL"

/-- Outcome of `mSession.update()` inside the polling loop. -/
inductive UpdateOutcome where
  | ok
  | cameraNotAvailable
  | otherFailure
deriving DecidableEq

/-- Outcomes of the external ARCore calls one `setupAR` invocation makes. -/
structure SetupEnv where
  activityExists : Bool
  availabilitySupported : Bool
  requestInstall : Except SetupThrow InstallStatus
  createSession : Except SetupThrow Unit
  geospatialSupported : Bool
  configure : Except SetupThrow Unit

/-- Outcomes of the external calls one polling-loop tick makes. -/
structure TickEnv where
  update : UpdateOutcome
  earth : Option EarthInfo

/-- Outcome of `checkVpsAvailabilityAsync`: either the engine callback fires
with an availability tag, or the call throws `SecurityException`. -/
inductive AvailOutcome where
  | security
  | result : String → AvailOutcome

/-- The mutable fields of `NativeLocalStorageModule`, plus the two ghost
trace fields `history` (every value the state cell held, in order) and
`calls` (every engine primitive invoked, in order). -/
structure ModuleState where
  vpsState : VpsState
  mSession : Option Unit
  mUserRequestedInstall : Bool
  isPollingVpsState : Bool
  history : List VpsState
  calls : List String

/-- Module state at construction: `NOT_SETUP`, no session, install flag set. -/
def initState : ModuleState :=
  { vpsState := .NOT_SETUP, mSession := none, mUserRequestedInstall := true,
    isPollingVpsState := false, history := [.NOT_SETUP], calls := [] }

/-- `setState`: write the state cell, suppressing a write of the current
value; a committed change extends `history` (one event per change). -/
def setState (m : ModuleState) (newState : VpsState) : ModuleState :=
  if m.vpsState = newState then m
  else { m with vpsState := newState, history := m.history ++ [newState] }

/-- Ghost instrumentation: record one engine-primitive invocation. -/
def addCall (m : ModuleState) (c : String) : ModuleState :=
  { m with calls := m.calls ++ [c] }

/-- `setupAR`: create and configure the engine session (skipped entirely if a
handle already exists), mirroring the source's control flow. -/
def setupAR (env : SetupEnv) (m : ModuleState) : ModuleState × Resolved :=
  let m1 := setState m .SETTING_UP
  if env.activityExists = false then
    (setState m1 .SETUP_FAILED, .rstr "ERROR_ACTIVITY_DOES_NOT_EXIST")
  else
    match m.mSession with
    | some _ => (setState m1 .READY_TO_TRACK, .rbool true)
    | none =>
      let m2 := addCall m1 "checkAvailability"
      if env.availabilitySupported = false then
        (setState m2 .UNSUPPORTED, .rstr "ERROR_ARCORE_NOT_SUPPORTED")
      else
        let m3 := addCall m2 "requestInstall"
        match env.requestInstall with
        | .error e => (setState m3 .SETUP_FAILED, .rstr e.errString)
        | .ok .INSTALL_REQUESTED =>
            ({ m3 with mUserRequestedInstall := false }, .rbool false)
        | .ok .INSTALLED =>
          let m4 := addCall m3 "createSession"
          match env.createSession with
          | .error e => (setState m4 .SETUP_FAILED, .rstr e.errString)
          | .ok _ =>
            let m5 := addCall { m4 with mSession := some () } "isGeospatialModeSupported"
            if env.geospatialSupported = false then
              ({ addCall (setState m5 .UNSUPPORTED) "close" with mSession := none },
               .rstr "ERROR_GEOSPATIAL_NOT_SUPPORTED")
            else
              let m6 := addCall m5 "configure"
              match env.configure with
              | .error e => (setState m6 .SETUP_FAILED, .rstr e.errString)
              | .ok _ => (setState m6 .READY_TO_TRACK, .rbool true)

/-- `startTracking`: guarded resume of the handle; starts the polling loop. -/
def startTracking (env : ResumeOutcome) (m : ModuleState) : ModuleState × Resolved :=
  match m.mSession with
  | none => (m, .rstr "ERROR_SESSION_NOT_INITIALIZED")
  | some _ =>
    if m.vpsState ≠ .READY_TO_TRACK then
      (m, .rstr "ERROR_SESSION_NOT_READY")
    else
      let m1 := addCall m "resume"
      match env with
      | .ok =>
        let m2 := setState m1 .PRETRACKING
        (if m2.isPollingVpsState = false then { m2 with isPollingVpsState := true } else m2,
         .rbool true)
      | e => (m1, .rstr e.errString)

/-- `stopTracking`: synchronous; clears the polling flag, pauses the handle,
goes to `READY_TO_TRACK`. -/
def stopTracking (m : ModuleState) : ModuleState × Bool :=
  match m.mSession with
  | none => (m, false)
  | some _ =>
    let m1 := addCall { m with isPollingVpsState := false } "pause"
    (setState m1 .READY_TO_TRACK, true)

/-- `getVpsState`: pure read, rendered as the enum constant name. -/
def getVpsState (m : ModuleState) : String :=
  m.vpsState.toStr

/-- The field-for-field copy of the engine pose into the resolved map
(the quaternion loop pushes each component in order). -/
def poseMapOf (p : GeospatialPose) : PoseMap :=
  { latitude := p.latitude, longitude := p.longitude, altitude := p.altitude,
    verticalAccuracy := p.verticalAccuracy, horizontalAccuracy := p.horizontalAccuracy,
    orientationYawAccuracy := p.orientationYawAccuracy,
    quaternion := p.eastUpSouthQuaternion.map (fun v => v) }

/-- `getCameraGeospatialPose`: three guarded error cases, then the verbatim
pose copy; never calls `setState`. -/
def getCameraGeospatialPose (earthEnv : Option EarthInfo) (m : ModuleState) :
    ModuleState × Resolved :=
  match m.mSession with
  | none => (m, .rstr "ERROR_SESSION_NOT_INITIALIZED")
  | some _ =>
    let m1 := addCall m "getEarth"
    match earthEnv with
    | none => (m1, .rstr "ERROR_EARTH_NOT_AVAILABLE")
    | some earth =>
      if earth.trackingState ≠ .TRACKING then
        (m1, .rstr "ERROR_EARTH_NOT_TRACKING")
      else
        (addCall m1 "getCameraGeospatialPose", .rpose (poseMapOf earth.pose))

/-- `checkVpsAvailability`: requires a handle; resolves the engine callback
value or the security-error string; never calls `setState`. -/
def checkVpsAvailability (env : AvailOutcome) (m : ModuleState) : ModuleState × Resolved :=
  match m.mSession with
  | none => (m, .rstr "ERROR_SESSION_NOT_INITIALIZED")
  | some _ =>
    let m1 := addCall m "checkVpsAvailabilityAsync"
    match env with
    | .security => (m1, .rstr "ERROR_INTERNET_PERMISSION_NOT_GRANTED")
    | .result s => (m1, .rstr s)

/-- `closeAR`: clears the polling flag first; with no handle it is the
idempotent `NOT_SETUP` transition; otherwise pause then (asynchronously,
modelled as run to completion) close and clear the handle. -/
def closeAR (pauseOk : Bool) (closeOk : Bool) (m : ModuleState) : ModuleState × Resolved :=
  let m0 : ModuleState := { m with isPollingVpsState := false }
  match m.mSession with
  | none => (setState m0 .NOT_SETUP, .rbool true)
  | some _ =>
    if pauseOk = false then
      (addCall m0 "pause", .rstr "ERROR_ARCORE_PAUSE_ERROR")
    else
      let m1 := addCall (addCall m0 "pause") "close"
      if closeOk = false then
        (m1, .rstr "ERROR_ARCORE_CLOSE_ERROR")
      else
        (setState { m1 with mSession := none } .NOT_SETUP, .rbool true)

/-- `updateGeospatialState`: the per-tick derivation of automatic state
transitions from the engine-reported earth state and tracking state. -/
def updateGeospatialState (earth : EarthInfo) (m : ModuleState) : ModuleState :=
  if earth.earthState ≠ .ENABLED then
    { setState m .EARTH_STATE_ERROR with isPollingVpsState := false }
  else if earth.trackingState = .TRACKING then
    (if m.vpsState = .PRETRACKING then setState m .TRACKING else m)
  else
    (if m.vpsState = .TRACKING then setState m .READY_TO_TRACK else m)

/-- One iteration of the `pollVpsState` loop body: guarded by the polling
flag and handle liveness, drives `update` and the geospatial derivation. -/
def pollTick (env : TickEnv) (m : ModuleState) : ModuleState :=
  if m.isPollingVpsState = false then m
  else
    match m.mSession with
    | none => { setState m .NOT_SETUP with isPollingVpsState := false }
    | some _ =>
      let m1 := addCall m "update"
      match env.update with
      | .cameraNotAvailable =>
          { setState m1 .CAMERA_NOT_AVAILABLE with isPollingVpsState := false }
      | .otherFailure =>
          { setState m1 .FATAL_UPDATE_ERROR with isPollingVpsState := false }
      | .ok =>
        let m2 := addCall m1 "getEarth"
        match env.earth with
        | none => m2
        | some earth => updateGeospatialState earth m2

/-- One interaction with the module: a bridge command (with the outcomes of
the engine calls it makes) or one polling-loop tick. -/
inductive Step where
  | setup : SetupEnv → Step
  | start : ResumeOutcome → Step
  | stop : Step
  | close : Bool → Bool → Step
  | getPose : Option EarthInfo → Step
  | checkAvail : AvailOutcome → Step
  | tick : TickEnv → Step

/-- State effect of one step (promise resolutions discarded). -/
def stepRun (s : Step) (m : ModuleState) : ModuleState :=
  match s with
  | .setup env => (setupAR env m).1
  | .start env => (startTracking env m).1
  | .stop => (stopTracking m).1
  | .close p c => (closeAR p c m).1
  | .getPose e => (getCameraGeospatialPose e m).1
  | .checkAvail e => (checkVpsAvailability e m).1
  | .tick e => pollTick e m

/-- Run a sequence of steps from a state. -/
def runSteps (steps : List Step) (m : ModuleState) : ModuleState :=
  match steps with
  | [] => m
  | s :: rest => runSteps rest (stepRun s m)

/-! Basic laws of the two instrumented writers. -/

@[simp]
theorem setState_vpsState (m : ModuleState) (t : VpsState) :
    (setState m t).vpsState = t := by
  unfold setState
  split
  · assumption
  · rfl

@[simp]
theorem setState_mSession (m : ModuleState) (t : VpsState) :
    (setState m t).mSession = m.mSession := by
  unfold setState
  split <;> rfl

@[simp]
theorem setState_calls (m : ModuleState) (t : VpsState) :
    (setState m t).calls = m.calls := by
  unfold setState
  split <;> rfl

@[simp]
theorem setState_isPolling (m : ModuleState) (t : VpsState) :
    (setState m t).isPollingVpsState = m.isPollingVpsState := by
  unfold setState
  split <;> rfl

@[simp]
theorem setState_install (m : ModuleState) (t : VpsState) :
    (setState m t).mUserRequestedInstall = m.mUserRequestedInstall := by
  unfold setState
  split <;> rfl

theorem setState_history (m : ModuleState) (t : VpsState) :
    (setState m t).history =
      if m.vpsState = t then m.history else m.history ++ [t] := by
  unfold setState
  split <;> simp [*]

theorem setState_self (m : ModuleState) (t : VpsState) (h : m.vpsState = t) :
    setState m t = m := by
  unfold setState
  simp [h]

theorem setState_change (m : ModuleState) (t : VpsState) (h : m.vpsState ≠ t) :
    (setState m t).history = m.history ++ [t] := by
  rw [setState_history]
  simp [h]

@[simp]
theorem addCall_vpsState (m : ModuleState) (c : String) :
    (addCall m c).vpsState = m.vpsState := rfl

@[simp]
theorem addCall_mSession (m : ModuleState) (c : String) :
    (addCall m c).mSession = m.mSession := rfl

@[simp]
theorem addCall_history (m : ModuleState) (c : String) :
    (addCall m c).history = m.history := rfl

@[simp]
theorem addCall_isPolling (m : ModuleState) (c : String) :
    (addCall m c).isPollingVpsState = m.isPollingVpsState := rfl

@[simp]
theorem addCall_install (m : ModuleState) (c : String) :
    (addCall m c).mUserRequestedInstall = m.mUserRequestedInstall := rfl

@[simp]
theorem addCall_calls (m : ModuleState) (c : String) :
    (addCall m c).calls = m.calls ++ [c] := rfl

/-! The transition table declared by the spec (sections 4.1 and 4.3), as a
relation on states.  An edge target in the first group is declared reachable
from any current state (`setupAR` has no precondition and first writes
`SETTING_UP`; `stopTracking` is callable from any state with a handle and
writes `READY_TO_TRACK`; `closeAR` writes `NOT_SETUP` from anywhere, as does
the poll loop when the handle is gone; the poll loop's fatal conditions are
unconditional).  The remaining targets are reachable only from the specific
states the spec names.  The spec's name for the camera-failure state is
`CAMERA_UNAVAILABLE`; it is identified here with the code's constant
`CAMERA_NOT_AVAILABLE` (see the counterexample for C1). -/

def specEdgeB (a b : VpsState) : Bool :=
  match b with
  | .NOT_SETUP => true
  | .SETTING_UP => true
  | .READY_TO_TRACK => true
  | .CAMERA_NOT_AVAILABLE => true
  | .EARTH_STATE_ERROR => true
  | .FATAL_UPDATE_ERROR => true
  | .SETUP_FAILED => a == .SETTING_UP
  | .UNSUPPORTED => a == .SETTING_UP
  | .PRETRACKING => a == .READY_TO_TRACK
  | .TRACKING => a == .PRETRACKING

/-- Modelled from the spec: `SpecEdge a b` holds when the spec's transition
rules declare an edge from state `a` to state `b`. -/
def SpecEdge (a b : VpsState) : Prop :=
  specEdgeB a b = true

/-- The ten state identifiers declared in section 3 of the spec. -/
def specDeclaredStateNames : List String :=
  ["NOT_SETUP", "SETTING_UP", "SETUP_FAILED", "UNSUPPORTED", "READY_TO_TRACK",
   "PRETRACKING", "TRACKING", "CAMERA_UNAVAILABLE", "EARTH_STATE_ERROR",
   "FATAL_UPDATE_ERROR"]

/-- The ten state identifiers the code's enum actually declares. -/
def moduleStateNames : List String :=
  ["NOT_SETUP", "SETTING_UP", "SETUP_FAILED", "UNSUPPORTED", "READY_TO_TRACK",
   "PRETRACKING", "TRACKING", "EARTH_STATE_ERROR", "CAMERA_NOT_AVAILABLE",
   "FATAL_UPDATE_ERROR"]

theorem toStr_mem_moduleStateNames (s : VpsState) : s.toStr ∈ moduleStateNames := by
  cases s <;> simp [VpsState.toStr, moduleStateNames]

/-- The run invariant: the recorded state history is a chain of declared
edges and ends at the current state. -/
def Inv (m : ModuleState) : Prop :=
  List.Chain' SpecEdge m.history ∧ m.history.getLast? = some m.vpsState

theorem inv_initState : Inv initState := by
  constructor
  · simp [initState]
  · rfl

theorem inv_setState (m : ModuleState) (t : VpsState) (h : Inv m)
    (he : SpecEdge m.vpsState t) : Inv (setState m t) := by
  unfold setState
  split
  · exact h
  · refine ⟨?_, ?_⟩
    · show List.Chain' SpecEdge (m.history ++ [t])
      rw [List.chain'_append]
      refine ⟨h.1, List.chain'_singleton t, ?_⟩
      intro x hx y hy
      rw [h.2] at hx
      simp at hx hy
      rw [← hx, ← hy]
      exact he
    · show (m.history ++ [t]).getLast? = some t
      simp

theorem edge_any_SETTING_UP (a : VpsState) : SpecEdge a .SETTING_UP := rfl

theorem edge_any_NOT_SETUP (a : VpsState) : SpecEdge a .NOT_SETUP := rfl

theorem edge_any_READY (a : VpsState) : SpecEdge a .READY_TO_TRACK := rfl

theorem edge_any_CAMERA (a : VpsState) : SpecEdge a .CAMERA_NOT_AVAILABLE := rfl

theorem edge_any_EARTH (a : VpsState) : SpecEdge a .EARTH_STATE_ERROR := rfl

theorem edge_any_FATAL (a : VpsState) : SpecEdge a .FATAL_UPDATE_ERROR := rfl

theorem edge_SETUP_FAILED : SpecEdge .SETTING_UP .SETUP_FAILED := rfl

theorem edge_UNSUPPORTED : SpecEdge .SETTING_UP .UNSUPPORTED := rfl

theorem edge_PRETRACKING : SpecEdge .READY_TO_TRACK .PRETRACKING := rfl

theorem edge_TRACKING : SpecEdge .PRETRACKING .TRACKING := rfl

theorem inv_setPolling (m : ModuleState) (b : Bool) (h : Inv m) :
    Inv { m with isPollingVpsState := b } := h

theorem inv_setSession (m : ModuleState) (s : Option Unit) (h : Inv m) :
    Inv { m with mSession := s } := h

theorem inv_setInstall (m : ModuleState) (b : Bool) (h : Inv m) :
    Inv { m with mUserRequestedInstall := b } := h

theorem inv_addCall (m : ModuleState) (c : String) (h : Inv m) :
    Inv (addCall m c) := h

theorem inv_setState_from (m : ModuleState) (t u : VpsState) (h : Inv m)
    (hv : m.vpsState = u) (he : SpecEdge u t) : Inv (setState m t) := by
  apply inv_setState _ _ h
  rw [hv]
  exact he

theorem setupAR_inv (env : SetupEnv) (m : ModuleState) (h : Inv m) :
    Inv (setupAR env m).1 := by
  have h1 : Inv (setState m .SETTING_UP) :=
    inv_setState _ _ h (edge_any_SETTING_UP _)
  unfold setupAR
  split
  · exact inv_setState_from _ _ _ h1 (by simp) edge_SETUP_FAILED
  · split
    · exact inv_setState _ _ h1 (edge_any_READY _)
    · split
      · exact inv_setState_from _ _ _ (inv_addCall _ _ h1) (by simp) edge_UNSUPPORTED
      · split
        · exact inv_setState_from _ _ _ (inv_addCall _ _ (inv_addCall _ _ h1))
            (by simp) edge_SETUP_FAILED
        · exact inv_setInstall _ _ (inv_addCall _ _ (inv_addCall _ _ h1))
        · split
          · exact inv_setState_from _ _ _
              (inv_addCall _ _ (inv_addCall _ _ (inv_addCall _ _ h1)))
              (by simp) edge_SETUP_FAILED
          · split
            · exact inv_setSession _ _ (inv_addCall _ _ (inv_setState_from _ _ _
                (inv_addCall _ _ (inv_setSession _ _
                  (inv_addCall _ _ (inv_addCall _ _ (inv_addCall _ _ h1)))))
                (by simp) edge_UNSUPPORTED))
            · split
              · exact inv_setState_from _ _ _
                  (inv_addCall _ _ (inv_addCall _ _ (inv_setSession _ _
                    (inv_addCall _ _ (inv_addCall _ _ (inv_addCall _ _ h1))))))
                  (by simp) edge_SETUP_FAILED
              · exact inv_setState _ _
                  (inv_addCall _ _ (inv_addCall _ _ (inv_setSession _ _
                    (inv_addCall _ _ (inv_addCall _ _ (inv_addCall _ _ h1))))))
                  (edge_any_READY _)

theorem startTracking_inv (env : ResumeOutcome) (m : ModuleState) (h : Inv m) :
    Inv (startTracking env m).1 := by
  unfold startTracking
  split
  · exact h
  · split
    · exact h
    · rename_i hready
      rw [not_not] at hready
      split
      · dsimp only
        split
        · exact inv_setPolling _ _ (inv_setState_from _ _ _ (inv_addCall _ _ h)
            (by simpa using hready) edge_PRETRACKING)
        · exact inv_setState_from _ _ _ (inv_addCall _ _ h)
            (by simpa using hready) edge_PRETRACKING
      · exact inv_addCall _ _ h

theorem stopTracking_inv (m : ModuleState) (h : Inv m) :
    Inv (stopTracking m).1 := by
  unfold stopTracking
  split
  · exact h
  · exact inv_setState _ _ (inv_addCall _ _ (inv_setPolling _ _ h)) (edge_any_READY _)

theorem closeAR_inv (pauseOk closeOk : Bool) (m : ModuleState) (h : Inv m) :
    Inv (closeAR pauseOk closeOk m).1 := by
  unfold closeAR
  split
  · exact inv_setState _ _ (inv_setPolling _ _ h) (edge_any_NOT_SETUP _)
  · split
    · exact inv_addCall _ _ (inv_setPolling _ _ h)
    · split
      · exact inv_addCall _ _ (inv_addCall _ _ (inv_setPolling _ _ h))
      · exact inv_setState _ _ (inv_setSession _ _
          (inv_addCall _ _ (inv_addCall _ _ (inv_setPolling _ _ h)))) (edge_any_NOT_SETUP _)

theorem getPose_inv (e : Option EarthInfo) (m : ModuleState) (h : Inv m) :
    Inv (getCameraGeospatialPose e m).1 := by
  unfold getCameraGeospatialPose
  split
  · exact h
  · split
    · exact inv_addCall _ _ h
    · split
      · exact inv_addCall _ _ h
      · exact inv_addCall _ _ (inv_addCall _ _ h)

theorem checkAvail_inv (e : AvailOutcome) (m : ModuleState) (h : Inv m) :
    Inv (checkVpsAvailability e m).1 := by
  unfold checkVpsAvailability
  split
  · exact h
  · split
    · exact inv_addCall _ _ h
    · exact inv_addCall _ _ h

theorem updateGeospatialState_inv (earth : EarthInfo) (m : ModuleState) (h : Inv m) :
    Inv (updateGeospatialState earth m) := by
  unfold updateGeospatialState
  split
  · exact inv_setPolling _ _ (inv_setState _ _ h (edge_any_EARTH _))
  · split
    · split
      · rename_i hpre
        exact inv_setState_from _ _ _ h hpre edge_TRACKING
      · exact h
    · split
      · exact inv_setState _ _ h (edge_any_READY _)
      · exact h

theorem pollTick_inv (env : TickEnv) (m : ModuleState) (h : Inv m) :
    Inv (pollTick env m) := by
  unfold pollTick
  split
  · exact h
  · split
    · exact inv_setPolling _ _ (inv_setState _ _ h (edge_any_NOT_SETUP _))
    · split
      · exact inv_setPolling _ _ (inv_setState _ _ (inv_addCall _ _ h) (edge_any_CAMERA _))
      · exact inv_setPolling _ _ (inv_setState _ _ (inv_addCall _ _ h) (edge_any_FATAL _))
      · split
        · exact inv_addCall _ _ (inv_addCall _ _ h)
        · exact updateGeospatialState_inv _ _ (inv_addCall _ _ (inv_addCall _ _ h))

theorem stepRun_inv (s : Step) (m : ModuleState) (h : Inv m) : Inv (stepRun s m) := by
  cases s with
  | setup env => exact setupAR_inv env m h
  | start env => exact startTracking_inv env m h
  | stop => exact stopTracking_inv m h
  | close p c => exact closeAR_inv p c m h
  | getPose e => exact getPose_inv e m h
  | checkAvail e => exact checkAvail_inv e m h
  | tick e => exact pollTick_inv e m h

theorem runSteps_inv (steps : List Step) (m : ModuleState) (h : Inv m) :
    Inv (runSteps steps m) := by
  induction steps generalizing m with
  | nil => exact h
  | cons s rest ih => exact ih _ (stepRun_inv s m h)

theorem map_self (l : List Float) : l.map (fun v => v) = l := by
  induction l with
  | nil => rfl
  | cons a t ih => simp [ih]

/-! Concrete runs used by the claim theorems below. -/

/-- A `setupAR` environment where every engine call succeeds. -/
def envOkSetup : SetupEnv :=
  { activityExists := true, availabilitySupported := true,
    requestInstall := .ok .INSTALLED, createSession := .ok (),
    geospatialSupported := true, configure := .ok () }

/-- A `setupAR` environment where the engine requests the out-of-band
install step. -/
def envInstall : SetupEnv :=
  { activityExists := true, availabilitySupported := true,
    requestInstall := .ok .INSTALL_REQUESTED, createSession := .ok (),
    geospatialSupported := true, configure := .ok () }

/-- A concrete engine pose. -/
def pose0 : GeospatialPose :=
  { latitude := 1.5, longitude := 2.5, altitude := 3.5,
    verticalAccuracy := 0.5, horizontalAccuracy := 0.25,
    orientationYawAccuracy := 0.125,
    eastUpSouthQuaternion := [0.0, 0.0, 0.0, 1.0] }

/-- The engine reporting its geospatial capability enabled and tracking. -/
def earthTracking : EarthInfo :=
  { earthState := .ENABLED, trackingState := .TRACKING, pose := pose0 }

/-- The engine reporting its geospatial capability enabled, not tracking. -/
def earthNotTracking : EarthInfo :=
  { earthState := .ENABLED, trackingState := .PAUSED, pose := pose0 }

/-- A polling tick during which `update` succeeds and the engine reports
tracking. -/
def tickTracking : TickEnv :=
  { update := .ok, earth := some earthTracking }

/-- Module state after a fully successful `setupAR` from construction. -/
def mReady : ModuleState := (setupAR envOkSetup initState).1

/-- Module state after `startTracking` succeeds from `mReady`. -/
def mPre : ModuleState := (startTracking .ok mReady).1

/-- Module state after the first polling tick observes tracking. -/
def mTrack : ModuleState := pollTick tickTracking mPre

/-- Successful setup and start, then a tick whose `update` raises
camera-not-available. -/
def c1Steps : List Step :=
  [.setup envOkSetup, .start .ok, .tick { update := .cameraNotAvailable, earth := none }]

/-! Claim theorems. -/

/-- C1, counterexample: after a successful setup and start, a polling tick in
which `update` raises camera-not-available commits a state whose identifier,
`CAMERA_NOT_AVAILABLE`, is not among the ten enum values the spec declares
(the spec names that state `CAMERA_UNAVAILABLE`). -/
theorem c1_counterexample :
    (runSteps c1Steps initState).vpsState.toStr = "CAMERA_NOT_AVAILABLE" ∧
    (runSteps c1Steps initState).vpsState.toStr ∉ specDeclaredStateNames := by
  refine ⟨rfl, ?_⟩
  decide

/-- C1 (amended): for every sequence of commands and polling ticks from the
initial state, the state cell only ever holds the ten enum values declared in
the code -- which match the spec's list except that the camera-failure state
is named `CAMERA_NOT_AVAILABLE`, not `CAMERA_UNAVAILABLE` -- and every
committed state transition matches an edge declared in the spec's transition
rules (sections 4.1 and 4.3), with that one renaming. -/
theorem c1_transitions_follow_spec_edges (steps : List Step) :
    List.Chain' SpecEdge (runSteps steps initState).history ∧
    ∀ s ∈ (runSteps steps initState).history, s.toStr ∈ moduleStateNames := by
  refine ⟨(runSteps_inv steps initState inv_initState).1, ?_⟩
  intro s _
  exact toStr_mem_moduleStateNames s

/-- C1 witness: the amended theorem applied to the concrete camera-failure
run. -/
theorem c1_witness :
    List.Chain' SpecEdge (runSteps c1Steps initState).history ∧
    VpsState.CAMERA_NOT_AVAILABLE.toStr ∈ moduleStateNames :=
  ⟨(c1_transitions_follow_spec_edges c1Steps).1,
   (c1_transitions_follow_spec_edges c1Steps).2 .CAMERA_NOT_AVAILABLE (by decide)⟩

/-- C2: `stopTracking` with a live handle pauses the handle, clears the
polling flag, transitions to `READY_TO_TRACK` and returns `true`; with no
handle it returns `false` and is the identity on the module state. -/
theorem c2_stopTracking_spec (m : ModuleState) :
    (m.mSession.isSome = true →
      (stopTracking m).2 = true ∧
      (stopTracking m).1.vpsState = .READY_TO_TRACK ∧
      (stopTracking m).1.mSession = m.mSession ∧
      (stopTracking m).1.isPollingVpsState = false ∧
      (stopTracking m).1.calls = m.calls ++ ["pause"]) ∧
    (m.mSession = none → stopTracking m = (m, false)) := by
  constructor
  · intro hs
    obtain ⟨u, hm⟩ := Option.isSome_iff_exists.mp hs
    simp [stopTracking, hm]
  · intro hm
    simp [stopTracking, hm]

/-- C2 witness: `stopTracking` from the concrete tracking state. -/
theorem c2_witness :
    (stopTracking mTrack).2 = true ∧
    (stopTracking mTrack).1.vpsState = .READY_TO_TRACK :=
  ⟨((c2_stopTracking_spec mTrack).1 rfl).1,
   ((c2_stopTracking_spec mTrack).1 rfl).2.1⟩

/-- C3: with every engine call succeeding and the engine reporting earth
state enabled and tracking on the first tick, the run `setupAR`,
`startTracking`, tick holds exactly the state sequence `NOT_SETUP`,
`SETTING_UP`, `READY_TO_TRACK`, `PRETRACKING`, `TRACKING`; the final
conjuncts exhibit the polling tick as the component that moves
`PRETRACKING` to `TRACKING` once the engine reports tracking. -/
theorem c3_scenario_trace :
    (setupAR envOkSetup initState).2 = .rbool true ∧
    (startTracking .ok mReady).2 = .rbool true ∧
    mTrack.history =
      [.NOT_SETUP, .SETTING_UP, .READY_TO_TRACK, .PRETRACKING, .TRACKING] ∧
    mPre.vpsState = .PRETRACKING ∧
    (pollTick tickTracking mPre).vpsState = .TRACKING :=
  ⟨rfl, rfl, rfl, rfl, rfl⟩

/-- C4: `startTracking` with no handle resolves the session-not-initialized
error and changes nothing; with a handle but any state other than
`READY_TO_TRACK` it resolves the session-not-ready error and changes
nothing; and whenever it resolves `true` the state was exactly
`READY_TO_TRACK` with a live handle, the handle was resumed, and the state
is now `PRETRACKING`. -/
theorem c4_startTracking_guard (env : ResumeOutcome) (m : ModuleState) :
    (m.mSession = none →
      startTracking env m = (m, .rstr "ERROR_SESSION_NOT_INITIALIZED")) ∧
    (m.mSession.isSome = true → m.vpsState ≠ .READY_TO_TRACK →
      startTracking env m = (m, .rstr "ERROR_SESSION_NOT_READY")) ∧
    ((startTracking env m).2 = .rbool true →
      m.vpsState = .READY_TO_TRACK ∧ m.mSession.isSome = true ∧
      (startTracking env m).1.vpsState = .PRETRACKING ∧
      (startTracking env m).1.calls = m.calls ++ ["resume"]) := by
  refine ⟨?_, ?_, ?_⟩
  · intro hm
    simp [startTracking, hm]
  · intro hs hv
    obtain ⟨u, hm⟩ := Option.isSome_iff_exists.mp hs
    simp [startTracking, hm, hv]
  · intro hok
    match hm : m.mSession with
    | none =>
      rw [show startTracking env m = (m, .rstr "ERROR_SESSION_NOT_INITIALIZED") by
        simp [startTracking, hm]] at hok
      exact Resolved.noConfusion hok
    | some u =>
      by_cases hv : m.vpsState = .READY_TO_TRACK
      · cases env with
        | ok =>
          refine ⟨hv, by simp [hm], ?_, ?_⟩
          · simp [startTracking, hm, hv]
            split <;> simp
          · simp [startTracking, hm, hv]
            split <;> simp
        | sessionNotPaused => simp [startTracking, hm, hv, ResumeOutcome.errString] at hok
        | cameraNotAvailable => simp [startTracking, hm, hv, ResumeOutcome.errString] at hok
        | security => simp [startTracking, hm, hv, ResumeOutcome.errString] at hok
        | illegalState => simp [startTracking, hm, hv, ResumeOutcome.errString] at hok
        | unsupportedConfiguration => simp [startTracking, hm, hv, ResumeOutcome.errString] at hok
        | fatal => simp [startTracking, hm, hv, ResumeOutcome.errString] at hok
      · simp [startTracking, hm, hv] at hok

/-- C4 witness: no-handle and wrong-state concrete cases. -/
theorem c4_witness :
    startTracking .ok initState = (initState, .rstr "ERROR_SESSION_NOT_INITIALIZED") ∧
    startTracking .ok mPre = (mPre, .rstr "ERROR_SESSION_NOT_READY") :=
  ⟨(c4_startTracking_guard .ok initState).1 rfl,
   (c4_startTracking_guard .ok mPre).2.1 rfl (by decide)⟩

/-- C5, counterexample: when the engine requests the out-of-band install
step, `setupAR` resolves `false` but the state remains `SETTING_UP`; it does
not revert to `NOT_SETUP` as the claim states. -/
theorem c5_counterexample :
    (setupAR envInstall initState).2 = .rbool false ∧
    (setupAR envInstall initState).1.vpsState = .SETTING_UP ∧
    (setupAR envInstall initState).1.vpsState ≠ .NOT_SETUP := by
  refine ⟨rfl, rfl, ?_⟩
  decide

/-- C5 (amended): when `setupAR` finds the engine requires the out-of-band
install step it resolves `false`, signalling the caller to retry later, but
`SessionState` stays at `SETTING_UP` (no revert to `NOT_SETUP`); the module
records `mUserRequestedInstall := false` and still has no handle. -/
theorem c5_install_requested (env : SetupEnv) (m : ModuleState)
    (hm : m.mSession = none) (ha : env.activityExists = true)
    (hav : env.availabilitySupported = true)
    (hi : env.requestInstall = .ok .INSTALL_REQUESTED) :
    (setupAR env m).2 = .rbool false ∧
    (setupAR env m).1.vpsState = .SETTING_UP ∧
    (setupAR env m).1.mUserRequestedInstall = false ∧
    (setupAR env m).1.mSession = none := by
  refine ⟨?_, ?_, ?_, ?_⟩ <;> simp [setupAR, hm, ha, hav, hi]

/-- C5 witness: the amended theorem at the concrete install-requested run. -/
theorem c5_witness :
    (setupAR envInstall initState).2 = .rbool false ∧
    (setupAR envInstall initState).1.vpsState = .SETTING_UP :=
  ⟨(c5_install_requested envInstall initState rfl rfl rfl rfl).1,
   (c5_install_requested envInstall initState rfl rfl rfl rfl).2.1⟩

/-- C6: from any state with a live handle (pause and close succeeding), two
consecutive `closeAR` calls both resolve `true` and the second commits no
state change, hence emits no additional event (the recorded `history`, whose
tail is the event stream, is unchanged); and in general `setState` is the
identity when the written value equals the current one, while a committed
change appends exactly one entry. -/
theorem c6_closeAR_idempotent (m : ModuleState) (hs : m.mSession.isSome = true) :
    (closeAR true true m).2 = .rbool true ∧
    (closeAR true true (closeAR true true m).1).2 = .rbool true ∧
    (closeAR true true (closeAR true true m).1).1.history =
      (closeAR true true m).1.history ∧
    (∀ (x : ModuleState) (t : VpsState),
      (x.vpsState = t → setState x t = x) ∧
      (x.vpsState ≠ t → (setState x t).history = x.history ++ [t])) := by
  obtain ⟨u, hm⟩ := Option.isSome_iff_exists.mp hs
  have h1 : (closeAR true true m).1.mSession = none := by
    simp [closeAR, hm]
  have h2 : (closeAR true true m).1.vpsState = .NOT_SETUP := by
    simp [closeAR, hm]
  refine ⟨by simp [closeAR, hm], ?_, ?_, ?_⟩
  · generalize (closeAR true true m).1 = r at h1
    simp [closeAR, h1]
  · generalize (closeAR true true m).1 = r at h1 h2
    simp [closeAR, h1, setState_history, h2]
  · intro x t
    exact ⟨setState_self x t, setState_change x t⟩

/-- C6 witness: the double `closeAR` from the concrete ready state. -/
theorem c6_witness :
    (closeAR true true mReady).2 = .rbool true ∧
    (closeAR true true (closeAR true true mReady).1).2 = .rbool true ∧
    (closeAR true true (closeAR true true mReady).1).1.history =
      (closeAR true true mReady).1.history :=
  ⟨(c6_closeAR_idempotent mReady rfl).1,
   (c6_closeAR_idempotent mReady rfl).2.1,
   (c6_closeAR_idempotent mReady rfl).2.2.1⟩

/-- C7: `getCameraGeospatialPose` resolves session-not-initialized with no
handle, earth-not-available when the engine returns no `Earth`, and
earth-not-tracking when the earth exists but is not tracking; and in every
case (error or success) it leaves the state cell, the event history, the
handle and the polling flag unchanged. -/
theorem c7_getPose_errors (e : Option EarthInfo) (m : ModuleState) :
    (m.mSession = none →
      (getCameraGeospatialPose e m).2 = .rstr "ERROR_SESSION_NOT_INITIALIZED") ∧
    (m.mSession.isSome = true → e = none →
      (getCameraGeospatialPose e m).2 = .rstr "ERROR_EARTH_NOT_AVAILABLE") ∧
    (∀ earth, m.mSession.isSome = true → e = some earth →
      earth.trackingState ≠ .TRACKING →
      (getCameraGeospatialPose e m).2 = .rstr "ERROR_EARTH_NOT_TRACKING") ∧
    ((getCameraGeospatialPose e m).1.vpsState = m.vpsState ∧
     (getCameraGeospatialPose e m).1.history = m.history ∧
     (getCameraGeospatialPose e m).1.mSession = m.mSession ∧
     (getCameraGeospatialPose e m).1.isPollingVpsState = m.isPollingVpsState) := by
  refine ⟨?_, ?_, ?_, ?_⟩
  · intro hm
    simp [getCameraGeospatialPose, hm]
  · intro hs he
    obtain ⟨u, hm⟩ := Option.isSome_iff_exists.mp hs
    simp [getCameraGeospatialPose, hm, he]
  · intro earth hs he ht
    obtain ⟨u, hm⟩ := Option.isSome_iff_exists.mp hs
    simp [getCameraGeospatialPose, hm, he, ht]
  · unfold getCameraGeospatialPose
    split
    · exact ⟨rfl, rfl, rfl, rfl⟩
    · split
      · simp
      · split
        · simp
        · simp

/-- C7 witness: the spec's concrete scenario 2 -- pose query in
`READY_TO_TRACK` before tracking -- yields earth-not-tracking, state
unchanged. -/
theorem c7_witness :
    (getCameraGeospatialPose (some earthNotTracking) mReady).2 =
      .rstr "ERROR_EARTH_NOT_TRACKING" ∧
    (getCameraGeospatialPose (some earthNotTracking) mReady).1.vpsState =
      mReady.vpsState :=
  ⟨(c7_getPose_errors (some earthNotTracking) mReady).2.2.1 earthNotTracking rfl rfl
      (by decide),
   (c7_getPose_errors (some earthNotTracking) mReady).2.2.2.1⟩

/-- C8: whenever `getCameraGeospatialPose` succeeds, the resolved map equals
the engine-reported pose field for field (latitude, longitude, altitude,
quaternion components, verticalAccuracy, horizontalAccuracy,
orientationYawAccuracy) with no transformation applied. -/
theorem c8_pose_roundtrip (m : ModuleState) (earth : EarthInfo)
    (hs : m.mSession.isSome = true) (ht : earth.trackingState = .TRACKING) :
    (getCameraGeospatialPose (some earth) m).2 =
      .rpose { latitude := earth.pose.latitude, longitude := earth.pose.longitude,
               altitude := earth.pose.altitude,
               verticalAccuracy := earth.pose.verticalAccuracy,
               horizontalAccuracy := earth.pose.horizontalAccuracy,
               orientationYawAccuracy := earth.pose.orientationYawAccuracy,
               quaternion := earth.pose.eastUpSouthQuaternion } := by
  obtain ⟨u, hm⟩ := Option.isSome_iff_exists.mp hs
  simp [getCameraGeospatialPose, hm, ht, poseMapOf, map_self]

/-- C8 witness: the round-trip at a concrete pose. -/
theorem c8_witness :
    (getCameraGeospatialPose (some earthTracking) mReady).2 =
      .rpose { latitude := earthTracking.pose.latitude,
               longitude := earthTracking.pose.longitude,
               altitude := earthTracking.pose.altitude,
               verticalAccuracy := earthTracking.pose.verticalAccuracy,
               horizontalAccuracy := earthTracking.pose.horizontalAccuracy,
               orientationYawAccuracy := earthTracking.pose.orientationYawAccuracy,
               quaternion := earthTracking.pose.eastUpSouthQuaternion } :=
  c8_pose_roundtrip mReady earthTracking rfl rfl

/-- C9: when a handle already exists (and an activity is present), `setupAR`
resolves `true`, writes `SETTING_UP` and then `READY_TO_TRACK` (the history
gains exactly those entries), keeps the same handle, and performs no engine
call at all -- no availability or install check, no session creation, no
configure -- for every prior state. -/
theorem c9_setupAR_existing (env : SetupEnv) (m : ModuleState)
    (hs : m.mSession.isSome = true) (ha : env.activityExists = true) :
    (setupAR env m).2 = .rbool true ∧
    (setupAR env m).1.vpsState = .READY_TO_TRACK ∧
    (setupAR env m).1.mSession = m.mSession ∧
    (setupAR env m).1.calls = m.calls ∧
    (setupAR env m).1.history =
      (if m.vpsState = .SETTING_UP then m.history else m.history ++ [.SETTING_UP])
        ++ [.READY_TO_TRACK] := by
  obtain ⟨u, hm⟩ := Option.isSome_iff_exists.mp hs
  refine ⟨?_, ?_, ?_, ?_, ?_⟩ <;> simp [setupAR, hm, ha, setState_history]

/-- C9 witness: `setupAR` while already tracking. -/
theorem c9_witness :
    (setupAR envOkSetup mTrack).2 = .rbool true ∧
    (setupAR envOkSetup mTrack).1.vpsState = .READY_TO_TRACK ∧
    (setupAR envOkSetup mTrack).1.calls = mTrack.calls :=
  ⟨(c9_setupAR_existing envOkSetup mTrack rfl rfl).1,
   (c9_setupAR_existing envOkSetup mTrack rfl rfl).2.1,
   (c9_setupAR_existing envOkSetup mTrack rfl rfl).2.2.2.1⟩

/-- C10, counterexample: from the concrete tracking state, `stopTracking`
returns `true` and an immediately following `startTracking` (with the engine
resume succeeding) resolves `true`, not the session-not-ready error: tracking
can be restarted without an intervening `setupAR`. -/
theorem c10_counterexample :
    (stopTracking mTrack).2 = true ∧
    (startTracking .ok (stopTracking mTrack).1).2 = .rbool true ∧
    (startTracking .ok (stopTracking mTrack).1).2 ≠ .rstr "ERROR_SESSION_NOT_READY" := by
  refine ⟨rfl, rfl, ?_⟩
  intro h
  exact Resolved.noConfusion
    (show Resolved.rbool true = Resolved.rstr "ERROR_SESSION_NOT_READY" from h)

/-- C10 (amended): for every state with a live handle, after `stopTracking`
returns `true` the state is `READY_TO_TRACK`, and an immediately following
`startTracking` whose engine resume succeeds resolves `true` and moves to
`PRETRACKING`: no intervening `setupAR` is required to restart tracking. -/
theorem c10_stop_then_start (m : ModuleState) (hs : m.mSession.isSome = true) :
    (stopTracking m).2 = true ∧
    (stopTracking m).1.vpsState = .READY_TO_TRACK ∧
    (startTracking .ok (stopTracking m).1).2 = .rbool true ∧
    (startTracking .ok (stopTracking m).1).1.vpsState = .PRETRACKING := by
  obtain ⟨u, hm⟩ := Option.isSome_iff_exists.mp hs
  have h1 : (stopTracking m).1.mSession = some u := by
    simp [stopTracking, hm]
  have h2 : (stopTracking m).1.vpsState = .READY_TO_TRACK := by
    simp [stopTracking, hm]
  refine ⟨by simp [stopTracking, hm], h2, ?_, ?_⟩
  · simp [startTracking, h1, h2]
  · simp [startTracking, h1, h2]
    split <;> simp

/-- C10 witness: the amended theorem at the concrete tracking state. -/
theorem c10_witness :
    (stopTracking mTrack).1.vpsState = .READY_TO_TRACK ∧
    (startTracking .ok (stopTracking mTrack).1).1.vpsState = .PRETRACKING :=
  ⟨(c10_stop_then_start mTrack rfl).2.1,
   (c10_stop_then_start mTrack rfl).2.2.2⟩

end NavisVps
